import Mathlib

/-!
Verification of the IPoIB ("IP over Infiniband") network driver
(`src/drivers/net/ipoib.c`) against its natural-language specification.

The driver is shallowly embedded: packet buffers (`struct io_buffer`) become
lists of bytes with the logical-start / logical-length operations `iob_push`,
`iob_pull`, `iob_put` expressed as list prepend/drop/take; the queue-set
bookkeeping becomes a record of naturals; transport collaborator calls
(`ib_create_cq`, `ib_post_send`, ...) become oracle parameters and emitted
operation lists, since the spec treats them as black boxes at their interface
boundary.
-/

namespace IPoIB

/-- A byte value (0..255).  We keep bytes as `Nat`; where byte-width matters
(the 16-bit protocol field, the 32-bit `recv_fill` counter) the reduction
modulo `2^w` is written out explicitly. -/
abbrev Byte := Nat

/-- Modelled from the spec: `IPOIB_ALEN`, the link-layer address length, from
`gpxe/ipoib.h` (not under src/).  The spec's data model gives a fixed-size
address of a 16-byte group identifier plus a 4-byte queue-pair number. -/
def IPOIB_ALEN : Nat := 20

/-- Modelled from the spec: size of `struct ipoib_pseudo_hdr` from
`gpxe/ipoib.h` (not under src/) — it carries exactly the peer's link-layer
address. -/
def ipoib_pseudo_hdr_size : Nat := IPOIB_ALEN

/-- Modelled from the spec: size of `struct ipoib_real_hdr` from
`gpxe/ipoib.h` (not under src/) — a 2-byte protocol identifier plus 2
reserved bytes. -/
def ipoib_real_hdr_size : Nat := 4

/-- Size of the combined `struct ipoib_hdr` (pseudo header followed by real
header), the header pushed by `ipoib_tx` and stripped by `ipoib_rx`. -/
def ipoib_hdr_size : Nat := ipoib_pseudo_hdr_size + ipoib_real_hdr_size

/-- Modelled from the spec: size of `struct ib_global_route_header` from
`gpxe/infiniband.h` (not under src/), the transport-level routing header (40
bytes, the Infiniband global route header); the spec calls its size
`routing_header_size` and says its excess beyond the pseudo-header is
stripped on receive. -/
def grh_size : Nat := 40

/-- In-memory layout of a `uint16_t` field (little-endian host), as written
by the assignment `ipoib_hdr->real.proto = net_protocol->net_proto`. -/
def bytes_of_u16 (x : Nat) : List Byte := [x % 256, x / 256 % 256]

/-- Reading a `uint16_t` back from its two in-memory bytes. -/
def u16_of_bytes (lo hi : Byte) : Nat := lo + 256 * hi

/-- `ipoib_tx` (ipoib.c:103): `iob_push` the combined header onto the
buffer — pseudo peer ← `ll_dest` (a raw `IPOIB_ALEN`-byte copy), real proto ←
the protocol identifier, reserved ← 0 — then hand the buffer to `netdev_tx`.
The model returns the buffer as handed off. -/
def ipoib_tx (ll_dest : List Byte) (net_proto : Nat) (payload : List Byte) :
    List Byte :=
  ll_dest ++ bytes_of_u16 net_proto ++ [0, 0] ++ payload

/-- `ipoib_rx` (ipoib.c:128): fail with `-EINVAL` (freeing the buffer) if the
buffer is shorter than the combined header; otherwise `iob_pull` the header
and hand the remainder to `net_rx` together with the protocol and peer
address read from the header. -/
def ipoib_rx (iobuf : List Byte) :
    Except Int (Nat × List Byte × List Byte) :=
  if iobuf.length < ipoib_hdr_size then
    .error (-22)
  else
    let after_peer := iobuf.drop IPOIB_ALEN
    .ok (u16_of_bytes (after_peer.getD 0 0) (after_peer.getD 1 0),
         iobuf.take IPOIB_ALEN,
         iobuf.drop ipoib_hdr_size)

/-- Result of `ipoib_transmit`: the status code, the buffer as the caller
sees it afterwards, and the send work request posted to the queue pair (if
any), carrying the wire frame. -/
structure TxResult where
  rc : Int
  buf : List Byte
  posted : Option (List Byte)
  deriving Repr, DecidableEq

/-- `ipoib_transmit` (ipoib.c:254): reject buffers shorter than the
pseudo-header with `-EINVAL`; otherwise `iob_pull` the pseudo-header and post
the rest as a send work request (via `ib_post_send`, whose status
`post_send_rc` the transport chooses and the function returns unchanged). -/
def ipoib_transmit (post_send_rc : Int) (iobuf : List Byte) : TxResult :=
  if iobuf.length < ipoib_pseudo_hdr_size then
    { rc := -22, buf := iobuf, posted := none }
  else
    let wire := iobuf.drop ipoib_pseudo_hdr_size
    { rc := post_send_rc, buf := wire, posted := some wire }

/-- `struct ipoib_queue_set` (ipoib.c:57): completion-queue and queue-pair
handles (0 models a NULL pointer) and the receive-ring fill levels
(`unsigned int` in the source). -/
structure QSet where
  cq : Nat
  qp : Nat
  recv_fill : Nat
  recv_max_fill : Nat
  deriving Repr, DecidableEq

/-- A call made to the Infiniband transport collaborator while tearing down
a queue set. -/
inductive IbOp where
  | destroy_qp (h : Nat)
  | destroy_cq (h : Nat)
  deriving Repr, DecidableEq

/-- `ipoib_destroy_qset` (ipoib.c:190): `ib_destroy_qp` if the queue-pair
handle is non-null, then `ib_destroy_cq` if the completion-queue handle is
non-null, then `memset` the bundle to zero.  Returns the zeroed bundle and
the transport calls issued, in order. -/
def ipoib_destroy_qset (qset : QSet) : QSet × List IbOp :=
  ( { cq := 0, qp := 0, recv_fill := 0, recv_max_fill := 0 },
    (if qset.qp ≠ 0 then [IbOp.destroy_qp qset.qp] else []) ++
      (if qset.cq ≠ 0 then [IbOp.destroy_cq qset.cq] else []) )

/-- `ipoib_create_qset` (ipoib.c:208): store `recv_max_fill`, assign the
completion-queue handle from `ib_create_cq` (the oracle `cq_alloc`; `none`
models a NULL return), then the queue-pair handle from `ib_create_qp`
(`qp_alloc`); on either failure run `ipoib_destroy_qset` on the partially
assigned bundle and return `-ENOMEM`.  Returns the status code, the bundle
afterwards, and the teardown calls issued. -/
def ipoib_create_qset (cq_alloc qp_alloc : Option Nat)
    (num_recv_wqes : Nat) (qset : QSet) : Int × QSet × List IbOp :=
  let qset := { qset with recv_max_fill := num_recv_wqes }
  match cq_alloc with
  | none =>
    let (q, ops) := ipoib_destroy_qset { qset with cq := 0 }
    (-12, q, ops)
  | some cqh =>
    let qset := { qset with cq := cqh }
    match qp_alloc with
    | none =>
      let (q, ops) := ipoib_destroy_qset { qset with qp := 0 }
      (-12, q, ops)
    | some qph =>
      (0, { qset with qp := qph }, [])

/-- Outcome of one iteration of the refill loop, chosen by the environment:
`alloc_iob` returns NULL, `ib_post_recv` returns nonzero, or the post
succeeds. -/
inductive RefillStep where
  | allocFail
  | postFail
  | ok
  deriving Repr, DecidableEq

/-- Buffer/fill accounting produced by a run of the refill loop. -/
structure RefillResult where
  recv_fill : Nat
  posted : Nat
  allocated : Nat
  freed : Nat
  deriving Repr, DecidableEq

/-- `ipoib_refill_recv` (ipoib.c:323): while `recv_fill < recv_max_fill`,
allocate one MTU-sized buffer (break on NULL), post it as a receive work
request (on failure `free_iob` the buffer and break), and increment
`recv_fill`.  The oracle gives the outcome of iteration `i`; the result
records the final fill level and how many buffers were allocated, posted
and freed by the loop itself. -/
def ipoib_refill_recv (oracle : Nat → RefillStep) (i fill max : Nat) :
    RefillResult :=
  if fill < max then
    match oracle i with
    | .allocFail => ⟨fill, 0, 0, 0⟩
    | .postFail => ⟨fill, 0, 1, 1⟩
    | .ok =>
      let r := ipoib_refill_recv oracle (i + 1) (fill + 1) max
      ⟨r.recv_fill, r.posted + 1, r.allocated + 1, r.freed⟩
  else ⟨fill, 0, 0, 0⟩
termination_by max - fill

/-- The number of consecutive `.ok` outcomes the oracle yields starting at
iteration `i`, looking at most `n` iterations ahead. -/
def count_leading_ok (oracle : Nat → RefillStep) : Nat → Nat → Nat
  | _, 0 => 0
  | i, n + 1 =>
    match oracle i with
    | .ok => count_leading_ok oracle (i + 1) n + 1
    | _ => 0

/-- What a receive-completion handler reports upward: `netdev_rx_err` with an
error, or `netdev_rx` delivering a buffer. -/
inductive RecvOutcome where
  | rx_err (err : Int)
  | rx (payload : List Byte)
  deriving Repr, DecidableEq

/-- `ipoib_data_complete_send` (ipoib.c:278): report the transmit result
upward (`-EIO` on an error syndrome, 0 otherwise) via
`netdev_tx_complete_err`; the queue set's `recv_fill` is not touched. -/
def ipoib_data_complete_send (syndrome : Nat) (qset : QSet) : QSet × Int :=
  (qset, if syndrome ≠ 0 then -5 else 0)

/-- `ipoib_data_complete_recv` (ipoib.c:296): on an error syndrome report
`-EIO` upward via `netdev_rx_err`; otherwise `iob_put` the completion's
reported byte count `len` (the buffer was fresh from `alloc_iob`, logical
length 0, so the logical buffer becomes the first `len` DMA'd bytes of
`contents`), `iob_pull` the routing-header bytes beyond the pseudo-header,
and deliver the result via `netdev_rx`.  Either way decrement `recv_fill`
once — an `unsigned int` decrement, hence modulo `2^32`. -/
def ipoib_data_complete_recv (syndrome len : Nat) (contents : List Byte)
    (qset : QSet) : QSet × RecvOutcome :=
  let outcome :=
    if syndrome ≠ 0 then
      RecvOutcome.rx_err (-5)
    else
      RecvOutcome.rx
        ((contents.take len).drop (grh_size - ipoib_pseudo_hdr_size))
  ({ qset with recv_fill := (qset.recv_fill + (2 ^ 32 - 1)) % 2 ^ 32 },
   outcome)

/-- The Infiniband transport device fields the driver reads
(`ibdev->broadcast_gid`, a 16-byte group identifier). -/
structure IbDeviceM where
  broadcast_gid : List Byte
  deriving Repr, DecidableEq

/-- The static `ipoib_broadcast` address (ipoib.c:88): its 16-byte `gid`
field. -/
def ipoib_broadcast_gid : List Byte :=
  [0xff, 0x12, 0x40, 0x1b, 0, 0, 0, 0, 0, 0, 0, 0, 0xff, 0xff, 0xff, 0xff]

/-- `ipoib_open` (ipoib.c:372): attach the data queue pair to
`ibdev->broadcast_gid` via `ib_mcast_attach` (whose status the transport
chooses); on failure return that status with the fill level untouched, on
success prime the receive ring with `ipoib_refill_recv` and return 0.
Returns the status, the group identifier passed to the attach call, and the
fill level afterwards. -/
def ipoib_open (ibdev : IbDeviceM) (attach_rc : Int)
    (oracle : Nat → RefillStep) (fill max : Nat) :
    Int × List Byte × Nat :=
  if attach_rc ≠ 0 then
    (attach_rc, ibdev.broadcast_gid, fill)
  else
    (0, ibdev.broadcast_gid, (ipoib_refill_recv oracle 0 fill max).recv_fill)

/-- `ipoib_close` (ipoib.c:396): detach via `ib_mcast_detach`, passing
`&ipoib_broadcast.gid` — the static constant, not a field of `ibdev`.
Returns the group identifier passed to the detach call. -/
def ipoib_close (ibdev : IbDeviceM) : List Byte :=
  ipoib_broadcast_gid

/-! ## Theorems -/

/-- C1: encoding a transmit header onto a buffer carrying payload `P` with
peer address `A` and protocol `T` (`ipoib_tx`), then decoding it as a
received frame (`ipoib_rx`), yields protocol `T`, peer `A`, and remaining
buffer `P`. -/
theorem ipoib_tx_rx_roundtrip (peer payload : List Byte) (proto : Nat)
    (hpeer : peer.length = IPOIB_ALEN) (hproto : proto < 2 ^ 16) :
    ipoib_rx (ipoib_tx peer proto payload) =
      Except.ok (proto, peer, payload) := by
  have hassoc : ipoib_tx peer proto payload =
      peer ++ (proto % 256 :: proto / 256 % 256 :: 0 :: 0 :: payload) := by
    simp [ipoib_tx, bytes_of_u16]
  have hlen : ¬ (ipoib_tx peer proto payload).length < ipoib_hdr_size := by
    rw [hassoc]
    simp [hpeer, IPOIB_ALEN, ipoib_hdr_size, ipoib_pseudo_hdr_size,
      ipoib_real_hdr_size]
    omega
  have hdrop : (ipoib_tx peer proto payload).drop IPOIB_ALEN =
      proto % 256 :: proto / 256 % 256 :: 0 :: 0 :: payload := by
    rw [hassoc, List.drop_left' hpeer]
  have htake : (ipoib_tx peer proto payload).take IPOIB_ALEN = peer := by
    rw [hassoc, List.take_left' hpeer]
  have hdrop24 : (ipoib_tx peer proto payload).drop ipoib_hdr_size =
      payload := by
    have h24 : ipoib_hdr_size = IPOIB_ALEN + 4 := rfl
    rw [h24, ← List.drop_drop, hdrop]
    rfl
  have hproto_rt : proto % 256 + 256 * (proto / 256 % 256) = proto := by
    omega
  rw [ipoib_rx, if_neg hlen]
  simp only [hdrop, htake, hdrop24, List.getD_cons_zero, List.getD_cons_succ,
    u16_of_bytes, hproto_rt]

/-- Witness for C1 at a concrete peer, protocol and payload. -/
theorem ipoib_tx_rx_roundtrip_witness :
    (List.replicate 20 (7 : Nat)).length = IPOIB_ALEN ∧ 2048 < 2 ^ 16 ∧
      ipoib_rx (ipoib_tx (List.replicate 20 7) 2048 [1, 2, 3]) =
        Except.ok (2048, List.replicate 20 7, [1, 2, 3]) :=
  ⟨by decide, by decide,
    ipoib_tx_rx_roundtrip (List.replicate 20 7) [1, 2, 3] 2048
      (by decide) (by decide)⟩

/-- C4: `ipoib_transmit` on a buffer shorter than the pseudo-header fails
with `-EINVAL`, posts no send work request, and returns the buffer
unchanged (no partial strip), so the caller retains ownership. -/
theorem ipoib_transmit_short_buffer (post_send_rc : Int) (iobuf : List Byte)
    (hshort : iobuf.length < ipoib_pseudo_hdr_size) :
    ipoib_transmit post_send_rc iobuf =
      { rc := -22, buf := iobuf, posted := none } := by
  rw [ipoib_transmit, if_pos hshort]

/-- Witness for C4 at a concrete 3-byte buffer. -/
theorem ipoib_transmit_short_buffer_witness :
    ([9, 9, 9] : List Byte).length < ipoib_pseudo_hdr_size ∧
      ipoib_transmit 0 [9, 9, 9] =
        { rc := -22, buf := [9, 9, 9], posted := none } :=
  ⟨by decide, ipoib_transmit_short_buffer 0 [9, 9, 9] (by decide)⟩

/-- One-step unfolding of the refill loop when the ring is not yet full. -/
theorem ipoib_refill_recv_step (oracle : Nat → RefillStep) (i fill max : Nat)
    (h : fill < max) :
    ipoib_refill_recv oracle i fill max =
      match oracle i with
      | .allocFail => ⟨fill, 0, 0, 0⟩
      | .postFail => ⟨fill, 0, 1, 1⟩
      | .ok =>
        let r := ipoib_refill_recv oracle (i + 1) (fill + 1) max
        ⟨r.recv_fill, r.posted + 1, r.allocated + 1, r.freed⟩ := by
  rw [ipoib_refill_recv, if_pos h]

/-- One-step unfolding of the refill loop when the ring is full. -/
theorem ipoib_refill_recv_stop (oracle : Nat → RefillStep) (i fill max : Nat)
    (h : ¬ fill < max) :
    ipoib_refill_recv oracle i fill max = ⟨fill, 0, 0, 0⟩ := by
  rw [ipoib_refill_recv, if_neg h]

/-- C2: starting from `recv_fill ≤ recv_max_fill`, the refill loop
(a terminating function by construction) leaves `recv_fill ≤ recv_max_fill`;
every buffer it allocates is either posted or freed (none is left
allocated-but-unposted); `recv_fill` grows by exactly one per successful
post; and it posts exactly the run of consecutive successes before the
first allocation or post failure (capped by the free ring slots), i.e. it
stops at the first failure. -/
theorem ipoib_refill_recv_spec (oracle : Nat → RefillStep) (i fill max : Nat)
    (hfill : fill ≤ max) :
    (ipoib_refill_recv oracle i fill max).recv_fill ≤ max ∧
    (ipoib_refill_recv oracle i fill max).allocated =
      (ipoib_refill_recv oracle i fill max).posted +
        (ipoib_refill_recv oracle i fill max).freed ∧
    (ipoib_refill_recv oracle i fill max).recv_fill =
      fill + (ipoib_refill_recv oracle i fill max).posted ∧
    (ipoib_refill_recv oracle i fill max).posted =
      count_leading_ok oracle i (max - fill) := by
  generalize hn : max - fill = n
  induction n generalizing i fill with
  | zero =>
    have hstop : ¬ fill < max := by omega
    rw [ipoib_refill_recv_stop oracle i fill max hstop]
    simp [count_leading_ok]
    omega
  | succ n ih =>
    have hlt : fill < max := by omega
    rw [ipoib_refill_recv_step oracle i fill max hlt]
    cases hstep : oracle i with
    | allocFail => simp [count_leading_ok, hstep]; omega
    | postFail => simp [count_leading_ok, hstep]; omega
    | ok =>
      have hrec := ih (i + 1) (fill + 1) (by omega) (by omega)
      simp only [count_leading_ok, hstep]
      refine ⟨hrec.1, by have := hrec.2.1; omega, ?_, ?_⟩
      · have := hrec.2.2.1
        omega
      · have := hrec.2.2.2
        omega

/-- Witness for C2 at a concrete oracle (two successes, then a post
failure) with `fill = 0`, `max = 8`. -/
theorem ipoib_refill_recv_spec_witness :
    (0 : Nat) ≤ 8 ∧
    ((ipoib_refill_recv
        (fun i => if i < 2 then .ok else .postFail) 0 0 8).recv_fill ≤ 8 ∧
     (ipoib_refill_recv
        (fun i => if i < 2 then .ok else .postFail) 0 0 8).allocated =
       (ipoib_refill_recv
          (fun i => if i < 2 then .ok else .postFail) 0 0 8).posted +
         (ipoib_refill_recv
            (fun i => if i < 2 then .ok else .postFail) 0 0 8).freed ∧
     (ipoib_refill_recv
        (fun i => if i < 2 then .ok else .postFail) 0 0 8).recv_fill =
       0 + (ipoib_refill_recv
              (fun i => if i < 2 then .ok else .postFail) 0 0 8).posted ∧
     (ipoib_refill_recv
        (fun i => if i < 2 then .ok else .postFail) 0 0 8).posted =
       count_leading_ok (fun i => if i < 2 then .ok else .postFail) 0
         (8 - 0)) :=
  ⟨by decide,
    ipoib_refill_recv_spec (fun i => if i < 2 then .ok else .postFail) 0 0 8
      (by decide)⟩

/-- C3: a receive completion decreases `recv_fill` by exactly one (for any
syndrome, i.e. on both the error branch and the success branch), provided
the counter is in the representable range `[1, 2^32)`; a send completion
leaves `recv_fill` unchanged (for any syndrome). -/
theorem ipoib_complete_fill_delta (syndrome len : Nat) (contents : List Byte)
    (qset : QSet) (send_syndrome : Nat)
    (h1 : 1 ≤ qset.recv_fill) (h2 : qset.recv_fill < 2 ^ 32) :
    (ipoib_data_complete_recv syndrome len contents qset).1.recv_fill =
      qset.recv_fill - 1 ∧
    (ipoib_data_complete_send send_syndrome qset).1.recv_fill =
      qset.recv_fill := by
  constructor
  · simp only [ipoib_data_complete_recv]
    omega
  · rfl

/-- Witness for C3 at a concrete queue set with `recv_fill = 3`. -/
theorem ipoib_complete_fill_delta_witness :
    1 ≤ (QSet.mk 1 2 3 8).recv_fill ∧ (QSet.mk 1 2 3 8).recv_fill < 2 ^ 32 ∧
    ((ipoib_data_complete_recv 1 0 [] ⟨1, 2, 3, 8⟩).1.recv_fill =
        (QSet.mk 1 2 3 8).recv_fill - 1 ∧
      (ipoib_data_complete_send 0 ⟨1, 2, 3, 8⟩).1.recv_fill =
        (QSet.mk 1 2 3 8).recv_fill) :=
  ⟨by decide, by decide,
    ipoib_complete_fill_delta 1 0 [] ⟨1, 2, 3, 8⟩ 0 (by decide) (by decide)⟩

/-- C10: `recv_fill` is an unsigned 32-bit counter decremented
unconditionally: a receive completion processed at `recv_fill = 0` leaves
`recv_fill = 2^32 - 1` (wrap modulo `2^32`), for any syndrome. -/
theorem ipoib_complete_recv_underflow (syndrome len : Nat)
    (contents : List Byte) (cq qp maxf : Nat) :
    (ipoib_data_complete_recv syndrome len contents
        ⟨cq, qp, 0, maxf⟩).1.recv_fill = 2 ^ 32 - 1 := by
  simp only [ipoib_data_complete_recv]
  omega

/-- C6: an error-free receive completion reporting `len` bytes (with
`len` at least the routing-header size, and at most the bytes actually in
the buffer) grows the buffer's logical length to `len` and delivers exactly
one buffer upward, of length
`len - (routing_header_size - pseudo_header_size)`. -/
theorem ipoib_complete_recv_delivery (len : Nat) (contents : List Byte)
    (qset : QSet) (hlen : grh_size ≤ len) (hdma : len ≤ contents.length) :
    (contents.take len).length = len ∧
    ∃ p, (ipoib_data_complete_recv 0 len contents qset).2 =
        RecvOutcome.rx p ∧
      p.length = len - (grh_size - ipoib_pseudo_hdr_size) := by
  have htake : (contents.take len).length = len := by
    simp
    omega
  refine ⟨htake,
    ⟨(contents.take len).drop (grh_size - ipoib_pseudo_hdr_size), ?_, ?_⟩⟩
  · simp [ipoib_data_complete_recv]
  · simp only [List.length_drop, htake]

/-- Witness for C6 at a 40-byte completion on a 48-byte buffer. -/
theorem ipoib_complete_recv_delivery_witness :
    grh_size ≤ 40 ∧ 40 ≤ (List.replicate 48 (0 : Nat)).length ∧
    (((List.replicate 48 (0 : Nat)).take 40).length = 40 ∧
      ∃ p, (ipoib_data_complete_recv 0 40 (List.replicate 48 0)
              ⟨1, 2, 8, 8⟩).2 = RecvOutcome.rx p ∧
        p.length = 40 - (grh_size - ipoib_pseudo_hdr_size)) :=
  ⟨by decide, by decide,
    ipoib_complete_recv_delivery 40 (List.replicate 48 0) ⟨1, 2, 8, 8⟩
      (by decide) (by decide)⟩

/-- C5: when the completion queue is allocated (handle `cqh`, non-null) but
the queue-pair allocation fails, `ipoib_create_qset` returns `-ENOMEM`,
releases the already-allocated completion queue (the only teardown call
issued), and leaves both handles null. -/
theorem ipoib_create_qset_qp_failure (cqh cap : Nat) (q0 : QSet)
    (hcq : cqh ≠ 0) :
    ipoib_create_qset (some cqh) none cap q0 =
      (-12, ⟨0, 0, 0, 0⟩, [IbOp.destroy_cq cqh]) := by
  simp [ipoib_create_qset, ipoib_destroy_qset, hcq]

/-- Witness for C5 at a concrete non-null completion-queue handle. -/
theorem ipoib_create_qset_qp_failure_witness :
    (1 : Nat) ≠ 0 ∧
    ipoib_create_qset (some 1) none 8 ⟨0, 0, 0, 0⟩ =
      (-12, ⟨0, 0, 0, 0⟩, [IbOp.destroy_cq 1]) :=
  ⟨by decide, ipoib_create_qset_qp_failure 1 8 ⟨0, 0, 0, 0⟩ (by decide)⟩

/-- C8 counterexample: a successful `ipoib_create_qset` run started from a
queue set whose `recv_fill` is 5 returns success yet leaves
`recv_fill = 5 ≠ 0` — the function never writes `recv_fill`; only probe's
prior zeroing of the device makes it 0 there. -/
theorem ipoib_create_qset_stale_fill :
    (ipoib_create_qset (some 1) (some 2) 8 ⟨0, 0, 5, 0⟩).1 = 0 ∧
    (ipoib_create_qset (some 1) (some 2) 8 ⟨0, 0, 5, 0⟩).2.1.recv_fill ≠
      0 := by
  decide

/-- C8 (amended): a successful `ipoib_create_qset` returns 0, sets
`recv_max_fill` to the requested receive capacity, installs the two
allocated handles, and leaves `recv_fill` unchanged from the initial state
(so it is 0 exactly when the caller zeroed the set beforehand, as probe
does). -/
theorem ipoib_create_qset_success_fields (cqh qph cap : Nat) (q0 : QSet) :
    (ipoib_create_qset (some cqh) (some qph) cap q0).1 = 0 ∧
    (ipoib_create_qset (some cqh) (some qph) cap q0).2.1.recv_max_fill =
      cap ∧
    (ipoib_create_qset (some cqh) (some qph) cap q0).2.1.recv_fill =
      q0.recv_fill ∧
    (ipoib_create_qset (some cqh) (some qph) cap q0).2.1.cq = cqh ∧
    (ipoib_create_qset (some cqh) (some qph) cap q0).2.1.qp = qph := by
  simp [ipoib_create_qset]

/-- C9: `ipoib_destroy_qset` is total over queue-set states and idempotent:
it zeroes the bundle, issues a queue-pair release exactly when that handle
is present and a completion-queue release exactly when that one is (the
releases are a subsequence of [release qp, release cq], i.e. qp first), and
running it again on the result changes nothing and issues no transport
calls. -/
theorem ipoib_destroy_qset_idempotent (qset : QSet) :
    (ipoib_destroy_qset qset).1 = ⟨0, 0, 0, 0⟩ ∧
    (IbOp.destroy_qp qset.qp ∈ (ipoib_destroy_qset qset).2 ↔
      qset.qp ≠ 0) ∧
    (IbOp.destroy_cq qset.cq ∈ (ipoib_destroy_qset qset).2 ↔
      qset.cq ≠ 0) ∧
    List.Sublist (ipoib_destroy_qset qset).2
      [IbOp.destroy_qp qset.qp, IbOp.destroy_cq qset.cq] ∧
    ipoib_destroy_qset (ipoib_destroy_qset qset).1 =
      ((ipoib_destroy_qset qset).1, []) := by
  by_cases hq : qset.qp = 0 <;> by_cases hc : qset.cq = 0 <;>
    simp [ipoib_destroy_qset, hq, hc]

/-- C7 counterexample: on a transport device whose `broadcast_gid` is the
all-zero group identifier, a successful `ipoib_open` attaches the queue
pair to that identifier, while `ipoib_close` detaches from the static
well-known constant `ipoib_broadcast.gid` — a different identifier. -/
theorem ipoib_open_close_gid_mismatch :
    (ipoib_open ⟨List.replicate 16 0⟩ 0 (fun _ => RefillStep.allocFail)
        0 8).2.1 ≠ ipoib_close ⟨List.replicate 16 0⟩ := by
  rw [ipoib_open]
  simp [ipoib_close, ipoib_broadcast_gid]

/-- C7 (amended): `ipoib_close` always detaches from the static well-known
broadcast group identifier `ipoib_broadcast.gid`; this coincides with the
identifier `ipoib_open` attached to (namely `ibdev->broadcast_gid`) exactly
when the transport device's broadcast identifier equals that constant. -/
theorem ipoib_close_detach_gid (ibdev : IbDeviceM) (attach_rc : Int)
    (oracle : Nat → RefillStep) (fill max : Nat) :
    ipoib_close ibdev = ipoib_broadcast_gid ∧
    ((ipoib_open ibdev attach_rc oracle fill max).2.1 = ipoib_close ibdev ↔
      ibdev.broadcast_gid = ipoib_broadcast_gid) := by
  refine ⟨rfl, ?_⟩
  rw [ipoib_open, ipoib_close]
  by_cases h : attach_rc ≠ 0
  · rw [if_pos h]
  · rw [if_neg h]

end IPoIB
